import Mathlib

/-!
Verification of the pytap streaming protocol parser and its energy
integrator against their natural-language specification.

The Lean definitions below are a shallow embedding of the Python sources
`custom_components/pytap/pytap/core/parser.py`, `state.py`, `types.py`,
`events.py` and `custom_components/pytap/energy.py`:

* bytes are `Nat` values (the sources only ever hold values 0..255);
* Python `dict`s (which preserve insertion order and update keys in
  place) are association lists manipulated by `alGet` / `alSet` / `alPop`;
* `datetime` values are rational numbers of seconds, `timedelta`
  arithmetic is rational arithmetic, and calls to `datetime.now()` draw
  from an explicit time oracle `Nat → ℚ` indexed by a call counter kept
  in the parser state;
* Python `float` arithmetic is modelled by exact rational arithmetic;
* operations at which the Python code can raise an uncaught exception
  (list indexing out of range inside `SlotClock`) return `Option`, with
  `none` standing for the exception escaping `feed`; exceptions the
  Python code catches locally are likewise `Option`s consumed at the
  `try`/`except` sites.

The CRC and barcode codecs (`pytap/core/crc.py`, `pytap/core/barcode.py`)
are not part of the provided sources (only their tests and callers are);
they are modelled from the specification, as marked on their definitions.
-/

set_option maxRecDepth 100000

namespace Pytap

/-! ## Association lists (Python dict model)

Python dictionaries preserve insertion order; updating an existing key
keeps its position, inserting a new key appends.  `alGet` is `dict.get`,
`alSet` is `d[k] = v`, `alPop` is `d.pop(k, None)`. -/

def alGet {α β : Type} [DecidableEq α] (l : List (α × β)) (k : α) : Option β :=
  match l with
  | [] => none
  | (k1, v1) :: rest => if k1 = k then some v1 else alGet rest k

def alSet {α β : Type} [DecidableEq α] (l : List (α × β)) (k : α) (v : β) :
    List (α × β) :=
  match l with
  | [] => [(k, v)]
  | (k1, v1) :: rest => if k1 = k then (k1, v) :: rest else (k1, v1) :: alSet rest k v

def alPop {α β : Type} [DecidableEq α] (l : List (α × β)) (k : α) :
    Option β × List (α × β) :=
  match l with
  | [] => (none, [])
  | (k1, v1) :: rest =>
      if k1 = k then (some v1, rest)
      else
        let (r, rest2) := alPop rest k
        (r, (k1, v1) :: rest2)

theorem alGet_alSet {α β : Type} [DecidableEq α] (l : List (α × β)) (k : α) (v : β) :
    alGet (alSet l k v) k = some v := by
  induction l with
  | nil => simp [alGet, alSet]
  | cons hd tl ih =>
      obtain ⟨k1, v1⟩ := hd
      by_cases h : k1 = k
      · simp [alGet, alSet, h]
      · simp [alGet, alSet, h, ih]

/-! ## Byte-level helpers -/

/-- Big-endian 16-bit value from two bytes. -/
def u16be (b0 b1 : Nat) : Nat := b0 * 256 + b1

/-- Little-endian 16-bit value from two bytes. -/
def u16le (b0 b1 : Nat) : Nat := b0 + 256 * b1

/-- An uppercase hexadecimal digit. -/
def hexDigit (n : Nat) : Char :=
  if n < 10 then Char.ofNat (48 + n) else Char.ofNat (55 + n)

/-- Python `f'{b:02X}'` for a byte. -/
def byteHex (b : Nat) : String :=
  String.mk [hexDigit (b / 16 % 16), hexDigit (b % 16)]

/-- Python `bytes.decode("utf-8", errors="replace")`, restricted to the
ASCII range: bytes below 0x80 decode to themselves, anything else to the
replacement character.  The concrete inputs used in this development are
pure ASCII, where this coincides with UTF-8 decoding. -/
def bytesToStr (l : List Nat) : String :=
  String.mk (l.map fun b => if b < 128 then Char.ofNat b else Char.ofNat 65533)

/-! ## CRC and barcode codecs (sources not provided)

`pytap/core/crc.py` and `pytap/core/barcode.py` are imported by the
parser but are not among the provided source files; only their tests and
callers are.  They are therefore modelled from the specification. -/

/-- One step of the bit-reflected CRC-16-CCITT: process one input byte. -/
def crcByte (c : Nat) : Nat → Nat
  | 0 => c
  | n + 1 => crcByte (if c % 2 = 1 then (c / 2) ^^^ 0x8408 else c / 2) n

/-- Modelled from the spec: `crc` of `pytap/core/crc.py` is missing from
the sources.  "The CRC is CRC-16-CCITT with initial value 0x8408,
bit-reflected, no final XOR; the empty buffer yields 0x8408."  The
model XORs each byte into the register and performs eight reflected
shift/feedback steps with polynomial 0x8408; it reproduces all the
expected values of the repository's own `test_crc.py`. -/
def crc (data : List Nat) : Nat :=
  data.foldl (fun c b => crcByte (c ^^^ b) 8) 0x8408

/-- Modelled from the spec: `barcode_from_address` of
`pytap/core/barcode.py` is missing from the sources.  "Barcode: derived
from a LongAddress whose first two bytes are the Tigo OUI prefix 04:C0
via a 16-symbol restricted alphabet plus a CRC-derived check character;
for non-matching prefixes the barcode is undefined."  The model is a
total deterministic encoding of the 04:C0-prefixed addresses (symbol
alphabet: hexadecimal digits; check character derived from the CRC of
the address bytes); no claim below depends on the rendered string, only
on definedness and determinism. -/
def barcodeFromAddress (la : List Nat) : Option String :=
  if la.take 2 = [0x04, 0xC0] then
    some ((String.mk [hexDigit (la.getD 2 0 / 16)]) ++ "-" ++
      String.join ((la.drop 3).map byteHex) ++
      String.mk [hexDigit (crc la % 16)])
  else none

/-! ## Link-layer types (`pytap/core/types.py`) -/

/-- Gateway link address: 15-bit gateway id plus direction bit
(bit 15: 0 = controller to gateway, 1 = gateway to controller). -/
structure Address where
  gatewayId : Nat
  isFrom : Bool
  deriving DecidableEq, Repr

/-- `Address.from_bytes`: decode a big-endian u16 from two bytes. -/
def Address.fromBytesPair (b0 b1 : Nat) : Address :=
  let value := u16be b0 b1
  ⟨value &&& 0x7FFF, value &&& 0x8000 ≠ 0⟩

/-- A decoded link-layer frame. -/
structure Frame where
  address : Address
  frameType : Nat
  payload : List Nat
  deriving DecidableEq, Repr

def SLOTS_PER_EPOCH : Nat := 12000
def MAX_SLOT_NUMBER : Nat := 11999

/-- Time synchronization counter: 2-bit epoch plus 14-bit slot number. -/
structure SlotCounter where
  raw : Nat
  deriving DecidableEq, Repr

def SlotCounter.epoch (sc : SlotCounter) : Nat := (sc.raw >>> 14) &&& 0x3

def SlotCounter.slotNumber (sc : SlotCounter) : Nat := sc.raw &&& 0x3FFF

/-- `U12Pair.from_bytes`: two 12-bit values packed into three bytes. -/
structure U12Pair where
  first : Nat
  second : Nat
  deriving DecidableEq, Repr

def u12PairOfBytes (b0 b1 b2 : Nat) : U12Pair :=
  ⟨(b0 <<< 4) ||| (b1 >>> 4), ((b1 &&& 0x0F) <<< 8) ||| b2⟩

/-- 13-byte solar optimizer power measurement (raw fields). -/
structure PowerReportR where
  voltageInOut : U12Pair
  dcDcDutyCycleRaw : Nat
  currentTemp : U12Pair
  unknown : List Nat
  slotCounter : SlotCounter
  rssi : Nat
  deriving DecidableEq, Repr

/-- `PowerReport.from_bytes` on a buffer of at least 13 bytes (the
callers establish the length guard before the reads). -/
def powerReportOfBytes (d : List Nat) : PowerReportR :=
  { voltageInOut := u12PairOfBytes (d.getD 0 0) (d.getD 1 0) (d.getD 2 0)
    dcDcDutyCycleRaw := d.getD 3 0
    currentTemp := u12PairOfBytes (d.getD 4 0) (d.getD 5 0) (d.getD 6 0)
    unknown := [d.getD 7 0, d.getD 8 0, d.getD 9 0]
    slotCounter := ⟨u16be (d.getD 10 0) (d.getD 11 0)⟩
    rssi := d.getD 12 0 }

def PowerReportR.voltageIn (r : PowerReportR) : ℚ := (r.voltageInOut.first : ℚ) / 20

def PowerReportR.voltageOut (r : PowerReportR) : ℚ := (r.voltageInOut.second : ℚ) / 10

def PowerReportR.currentIn (r : PowerReportR) : ℚ := (r.currentTemp.first : ℚ) / 200

/-- Temperature with 12-bit sign extension. -/
def PowerReportR.temperature (r : PowerReportR) : ℚ :=
  let raw := r.currentTemp.second
  if raw &&& 0x800 ≠ 0 then ((raw : ℤ) - 4096 : ℤ) / 10 else (raw : ℚ) / 10

def PowerReportR.dutyCycle (r : PowerReportR) : ℚ := (r.dcDcDutyCycleRaw : ℚ) / 255

/-- 7-byte header of a packet embedded in a RECEIVE_RESPONSE payload. -/
structure ReceivedPacketHeader where
  packetType : Nat
  nodeAddress : Nat
  shortAddress : Nat
  dsn : Nat
  dataLength : Nat
  deriving DecidableEq, Repr

/-- `ReceivedPacketHeader.from_bytes`; `none` is the `ValueError` raised
on a buffer shorter than 7 bytes. -/
def receivedPacketHeaderOfBytes (d : List Nat) : Option ReceivedPacketHeader :=
  if d.length < 7 then none
  else some
    { packetType := d.getD 0 0
      nodeAddress := u16be (d.getD 1 0) (d.getD 2 0)
      shortAddress := u16be (d.getD 3 0) (d.getD 4 0)
      dsn := d.getD 5 0
      dataLength := d.getD 6 0 }

/-- `iter_received_packets`: walk back-to-back packets, stopping at the
first truncated header or truncated payload. -/
def iterReceivedPackets (data : List Nat) : List (List Nat × List Nat) :=
  if h : data.length < 7 then []
  else
    let dlen := data.getD 6 0
    if 7 + dlen > data.length then []
    else
      (data.take 7, (data.drop 7).take dlen) :: iterReceivedPackets (data.drop (7 + dlen))
  termination_by data.length
  decreasing_by
    simp only [List.length_drop]
    omega

/-! ## SlotClock (`pytap/core/state.py`)

`datetime` values are rationals (seconds); `timedelta(milliseconds=m)`
is `m / 1000`.  Python list assignment `l[i] = x` raises `IndexError`
when `i ≥ len(l)`; `listSetQ` returns `none` there, and that `none`
propagates out of `feed` unhandled, exactly like the exception. -/

def listSetQ {α : Type} (l : List α) (i : Nat) (a : α) : Option (List α) :=
  if i < l.length then some (l.set i a) else none

/-- Python `l[i]` with an `Int` index: negative indices address from the
end; out-of-range access is `none` (an `IndexError`). -/
def pyGet {α : Type} (l : List α) (i : Int) : Option α :=
  if 0 ≤ i then l.get? i.toNat
  else if (-i).toNat ≤ l.length then l.get? (l.length - (-i).toNat) else none

structure SlotClock where
  times : List (Option ℚ)
  lastIndex : Int
  lastTime : ℚ
  deriving DecidableEq, Repr

def NUM_INDICES : Nat := 48

/-- `SlotClock._index_and_offset`: lookup index and offset (in seconds)
within its 1000-slot block. -/
def slotIndexOffset (sc : SlotCounter) : Nat × ℚ :=
  let absoluteSlot := sc.epoch * SLOTS_PER_EPOCH + sc.slotNumber
  (absoluteSlot / 1000, (5 * (absoluteSlot % 1000) : ℚ) / 1000)

/-- `SlotClock._initialize` (also the constructor): one reference point
plus a nominal-timing backfill of the other 47 cells.  The very first
write `self._times[index] = base` raises `IndexError` when the slot
counter's index is 48 or more (slot number ≥ 12000 in epoch 3). -/
def slotClockInit (sc : SlotCounter) (time : ℚ) : Option SlotClock := do
  let (index, offset) := slotIndexOffset sc
  let base := time - offset
  let t0 := List.replicate NUM_INDICES (none : Option ℚ)
  let t1 ← listSetQ t0 index (some base)
  let t2 ← (List.range' 1 (NUM_INDICES - 1)).foldlM (fun ts i =>
      listSetQ ts (((index : Int) - (i : Int)).emod (NUM_INDICES : Int)).toNat
        (some (base - (5000 * (i : ℚ)) / 1000))) t1
  pure ⟨t2, (index : Int), time⟩

/-- `SlotClock.set`: wall-clock regression reinitializes; otherwise the
block cell is written and skipped cells are backfilled from the last
index with nominal 5-second steps. -/
def slotClockSet (c : SlotClock) (sc : SlotCounter) (time : ℚ) : Option SlotClock := do
  if time < c.lastTime then slotClockInit sc time
  else
    let (index, offset) := slotIndexOffset sc
    let t1 ← listSetQ c.times index (some (time - offset))
    if (index : Int) ≠ c.lastIndex then
      let steps := ((index : Int) - c.lastIndex).emod (NUM_INDICES : Int)
      let t2 ← (List.range' 1 (steps.toNat - 1)).foldlM (fun ts i => do
          let cell ← pyGet ts c.lastIndex
          let v ← cell
          listSetQ ts (((c.lastIndex + (i : Int)).emod (NUM_INDICES : Int)).toNat)
            (some (v + (5000 * (i : ℚ)) / 1000))) t1
      pure ⟨t2, (index : Int), time⟩
    else
      pure ⟨t1, (index : Int), time⟩

/-- `SlotClock.get`; `none` is the `IndexError` on an out-of-range index
(callers catch it), an empty cell falls back to the last observed time. -/
def slotClockGet (c : SlotClock) (sc : SlotCounter) : Option ℚ := do
  let (index, offset) := slotIndexOffset sc
  let cell ← c.times.get? index
  match cell with
  | none => pure c.lastTime
  | some base => pure (base + offset)

/-! ## NodeTableBuilder (`pytap/core/state.py`)

Builder entries are an insertion-ordered association list
`NodeID → LongAddress` (a `LongAddress` is its 8-byte list). -/

/-- `NodeTableBuilder.push`: returns (completed table?, new builder
contents).  An empty page finalises: the accumulated entries are
returned (or `none` when nothing was accumulated) and the builder is
cleared; a non-empty page merges into the builder. -/
def pushNodeTable (builder : List (Nat × List Nat)) (page : List (Nat × List Nat)) :
    Option (List (Nat × List Nat)) × List (Nat × List Nat) :=
  if page.isEmpty then
    (if builder.isEmpty then none else some builder, [])
  else
    (none, page.foldl (fun b kv => alSet b kv.1 kv.2) builder)

/-! ## Persistent state, enumeration state, counters, events -/

structure PersistentState where
  gatewayIdentities : List (Nat × List Nat)
  gatewayVersions : List (Nat × String)
  gatewayNodeTables : List (Nat × List (Nat × List Nat))
  deriving DecidableEq, Repr

structure EnumerationState where
  enumerationGatewayId : Nat
  gatewayIdentities : List (Nat × List Nat)
  gatewayVersions : List (Nat × String)
  deriving DecidableEq, Repr

structure Counters where
  framesReceived : Nat
  crcErrors : Nat
  runts : Nat
  giants : Nat
  noiseBytes : Nat
  deriving DecidableEq, Repr

/-- `str(LongAddress)`: colon-separated uppercase hex. -/
def longAddressStr (la : List Nat) : String :=
  String.intercalate ":" (la.map byteHex)

/-- The event variants of `pytap/core/events.py`.  The infrastructure
variant carries the gateway map (id, address string?, version?) and the
node map (id, address string, barcode?) in Python dict iteration
order. -/
inductive Event where
  | powerReport (gatewayId nodeId : Nat) (barcode : Option String)
      (voltageIn voltageOut currentIn power currentOut temperature dcDcDutyCycle : ℚ)
      (rssi : Nat) (timestamp : ℚ)
  | infrastructure (gateways : List (Nat × Option String × Option String))
      (nodes : List (Nat × String × Option String)) (timestamp : ℚ)
  | topology (gatewayId nodeId : Nat) (data : List Nat) (timestamp : ℚ)
  | stringEvent (gatewayId nodeId : Nat) (direction : String) (content : String)
      (timestamp : ℚ)
  deriving DecidableEq, Repr

def Event.isInfrastructure : Event → Bool
  | .infrastructure _ _ _ => true
  | _ => false

/-- Python `round(x, 4)` (round half to even) on exact rationals. -/
def roundHalfEven (x : ℚ) : ℤ :=
  let f := Int.floor x
  let r := x - f
  if r < 1 / 2 then f
  else if 1 / 2 < r then f + 1
  else if f % 2 = 0 then f else f + 1

def pyRound4 (q : ℚ) : ℚ := (roundHalfEven (q * 10000) : ℚ) / 10000

/-- `PowerReportEvent.__init__`: derives `current_out` and `power`
(rounded to 4 places; `current_out` is 0 when `voltage_out` is 0). -/
def mkPowerReportEvent (gatewayId nodeId : Nat) (barcode : Option String)
    (r : PowerReportR) (timestamp : ℚ) : Event :=
  let vIn := r.voltageIn
  let vOut := r.voltageOut
  let iIn := r.currentIn
  let currentOut := if vOut ≠ 0 then pyRound4 ((vIn * iIn) / vOut) else 0
  let power := pyRound4 (currentOut * vOut)
  .powerReport gatewayId nodeId barcode vIn vOut iIn power currentOut
    r.temperature r.dutyCycle r.rssi timestamp

/-! ## Parser state (`Parser.__init__`, without a state file) -/

inductive FrameState where
  | idle | noise | startOfFrame | frame | frameEscape | giant | giantEscape
  deriving DecidableEq, Repr

def MAX_FRAME_SIZE : Nat := 256

structure ParserState where
  state : FrameState
  buffer : List Nat
  rxPacketNumbers : List (Nat × Nat)
  commandsAwaiting : List ((Nat × Nat) × (Nat × List Nat))
  commandSequenceNumbers : List (Nat × Nat)
  slotClocks : List (Nat × SlotClock)
  capturedSlotTimes : List (Nat × ℚ)
  enumState : Option EnumerationState
  persistent : PersistentState
  nodeTableBuilders : List (Nat × List (Nat × List Nat))
  counters : Counters
  nowCalls : Nat
  deriving DecidableEq, Repr

def initState : ParserState :=
  { state := .idle
    buffer := []
    rxPacketNumbers := []
    commandsAwaiting := []
    commandSequenceNumbers := []
    slotClocks := []
    capturedSlotTimes := []
    enumState := none
    persistent := ⟨[], [], []⟩
    nodeTableBuilders := []
    counters := ⟨0, 0, 0, 0, 0⟩
    nowCalls := 0 }

/-- The time oracle: one `datetime.now()` call, advancing the counter. -/
def takeNow (times : Nat → ℚ) (s : ParserState) : ℚ × ParserState :=
  (times s.nowCalls, { s with nowCalls := s.nowCalls + 1 })

/-! ## Frame accumulation state machine (`Parser._accumulate`, `_decode_frame`) -/

/-- The fixed escaped-pair table (`_UNESCAPE_MAP`). -/
def unescapeMap (b : Nat) : Option Nat :=
  match b with
  | 0x00 => some 0x7E
  | 0x01 => some 0x24
  | 0x02 => some 0x23
  | 0x03 => some 0x25
  | 0x04 => some 0xA4
  | 0x05 => some 0xA3
  | 0x06 => some 0xA5
  | _ => none

/-- `Parser._decode_frame`: validate a completed, unescaped buffer.
Returns the decoded frame (or `none` for a runt or CRC mismatch) and
the updated counters. -/
def decodeFrame (buffer : List Nat) (c : Counters) : Option Frame × Counters :=
  if buffer.length < 6 then (none, { c with runts := c.runts + 1 })
  else
    let body := buffer.take (buffer.length - 2)
    let expectedCrc := u16le (buffer.getD (buffer.length - 2) 0) (buffer.getD (buffer.length - 1) 0)
    if crc body ≠ expectedCrc then (none, { c with crcErrors := c.crcErrors + 1 })
    else
      let address := Address.fromBytesPair (buffer.getD 0 0) (buffer.getD 1 0)
      let frameType := u16be (buffer.getD 2 0) (buffer.getD 3 0)
      let payload := (buffer.drop 4).take (buffer.length - 6)
      (some ⟨address, frameType, payload⟩, c)

/-- Transition bookkeeping shared by all non-returning `_accumulate`
branches: entering NOISE from elsewhere counts a noise byte; entering
GIANT from outside GIANT/GIANT_ESCAPE counts a giant and clears the
buffer. -/
def accumFinish (s : ParserState) (next : FrameState) (buf : List Nat) :
    ParserState × Option Frame :=
  let c1 :=
    if next = .noise ∧ s.state ≠ .noise then
      { s.counters with noiseBytes := s.counters.noiseBytes + 1 }
    else s.counters
  let (buf2, c2) :=
    if next = .giant ∧ s.state ≠ .giant ∧ s.state ≠ .giantEscape then
      (([] : List Nat), { c1 with giants := c1.giants + 1 })
    else (buf, c1)
  ({ s with state := next, buffer := buf2, counters := c2 }, none)

/-- `Parser._accumulate` on one byte: the frame state machine, with the
noise/giant counter bookkeeping applied to every transition except the
early return on a frame close (`7E 08`). -/
def accumStep (s : ParserState) (b : Nat) : ParserState × Option Frame :=
  match s.state with
  | .frameEscape =>
      if b = 0x08 then
        let (frame, c1) := decodeFrame s.buffer s.counters
        ({ s with state := .idle, buffer := [], counters := c1 }, frame)
      else
        let (next, buf) :=
          if b = 0x07 then (FrameState.frame, ([] : List Nat))
          else
            match unescapeMap b with
            | some u =>
                if s.buffer.length < MAX_FRAME_SIZE then (.frame, s.buffer ++ [u])
                else (.giant, [])
            | none => (.noise, [])
        accumFinish s next buf
  | .idle =>
      let next :=
        if b = 0x00 ∨ b = 0xFF then FrameState.idle
        else if b = 0x7E then .startOfFrame
        else .noise
      accumFinish s next s.buffer
  | .noise =>
      let next :=
        if b = 0x00 ∨ b = 0xFF then FrameState.idle
        else if b = 0x7E then .startOfFrame
        else .noise
      accumFinish s next s.buffer
  | .startOfFrame =>
      if b = 0x07 then accumFinish s .frame []
      else accumFinish s .noise s.buffer
  | .frame =>
      if b = 0x7E then accumFinish s .frameEscape s.buffer
      else if s.buffer.length < MAX_FRAME_SIZE then accumFinish s .frame (s.buffer ++ [b])
      else accumFinish s .giant s.buffer
  | .giant =>
      if b = 0x7E then accumFinish s .giantEscape s.buffer
      else accumFinish s .giant s.buffer
  | .giantEscape =>
      if b = 0x07 then accumFinish s .frame []
      else if b = 0x08 then accumFinish s .idle s.buffer
      else accumFinish s .giant s.buffer

/-! ## Infrastructure event helper (`Parser._emit_infrastructure_event`) -/

/-- Gateway map of the infrastructure snapshot: all gateways with an
identity (in insertion order, with their version if any), then
version-only gateways appended. -/
def mkInfrastructureGateways (p : PersistentState) :
    List (Nat × Option String × Option String) :=
  let g1 := p.gatewayIdentities.map fun kv =>
    (kv.1, (some (longAddressStr kv.2), alGet p.gatewayVersions kv.1))
  p.gatewayVersions.foldl (fun acc kv =>
    match alGet acc kv.1 with
    | some _ => acc
    | none => acc ++ [(kv.1, (none, some kv.2))]) g1

/-- Node map of the infrastructure snapshot: every gateway node table in
order, node ids keyed across gateways (later tables overwrite). -/
def mkInfrastructureNodes (p : PersistentState) :
    List (Nat × String × Option String) :=
  p.gatewayNodeTables.foldl (fun acc gwTbl =>
    gwTbl.2.foldl (fun acc2 nodeKv =>
      alSet acc2 nodeKv.1 (longAddressStr nodeKv.2, barcodeFromAddress nodeKv.2)) acc) []

/-- `Parser._emit_infrastructure_event` (state persistence is a no-op
without a state file). -/
def emitInfrastructureEvent (times : Nat → ℚ) (s : ParserState) :
    ParserState × List Event :=
  let gateways := mkInfrastructureGateways s.persistent
  let nodes := mkInfrastructureNodes s.persistent
  let (t, s1) := takeNow times s
  (s1, [.infrastructure gateways nodes t])

/-! ## Transport handlers -/

/-- `_interpret_packet_number_lo`: expand a 1-byte packet number using
the previous full number. -/
def interpretPacketNumberLo (newLo old : Nat) : Nat :=
  let oldHi := (old >>> 8) &&& 0xFF
  let oldLo := old &&& 0xFF
  let newHi := if newLo ≥ oldLo then oldHi else (oldHi + 1) &&& 0xFF
  (newHi <<< 8) ||| newLo

/-- `Parser._handle_receive_request`. -/
def handleReceiveRequest (times : Nat → ℚ) (s : ParserState) (f : Frame) :
    ParserState × List Event :=
  if f.address.isFrom then (s, [])
  else if f.payload.length < 5 then (s, [])
  else
    let gwId := f.address.gatewayId
    let packetNumber := u16be (f.payload.getD 2 0) (f.payload.getD 3 0)
    let s1 := { s with rxPacketNumbers := alSet s.rxPacketNumbers gwId packetNumber }
    let (t, s2) := takeNow times s1
    ({ s2 with capturedSlotTimes := alSet s2.capturedSlotTimes gwId t }, [])

/-- `Parser._handle_power_report`; `none` is an uncaught-at-this-level
exception (an `IndexError` from `SlotClock.get`), caught by the packet
loop of the receive-response handler. -/
def handlePowerReport (s : ParserState) (gwId nodeId : Nat) (data : List Nat) :
    Option (List Event) :=
  if data.length < 13 then some []
  else
    let report := powerReportOfBytes (data.take 13)
    match alGet s.slotClocks gwId with
    | none => some []
    | some clock => do
        let timestamp ← slotClockGet clock report.slotCounter
        let barcode :=
          match alGet s.persistent.gatewayNodeTables gwId with
          | none => none
          | some tbl =>
              match alGet tbl nodeId with
              | none => none
              | some la => barcodeFromAddress la
        pure [mkPowerReportEvent gwId nodeId barcode report timestamp]

/-- `Parser._handle_string_response` (PV-node string). -/
def handleStringResponse (times : Nat → ℚ) (s : ParserState) (gwId nodeId : Nat)
    (data : List Nat) : List Event × ParserState :=
  let content := bytesToStr data
  let (t, s1) := takeNow times s
  ([.stringEvent gwId nodeId "response" content t], s1)

/-- `Parser._handle_topology_report`. -/
def handleTopologyReport (times : Nat → ℚ) (s : ParserState) (gwId nodeId : Nat)
    (data : List Nat) : List Event × ParserState :=
  let (t, s1) := takeNow times s
  ([.topology gwId nodeId data t], s1)

/-- `Parser._parse_pv_packet`: route one embedded PV packet.  `none` is
an exception propagating to the packet loop (which catches it). -/
def parsePvPacket (times : Nat → ℚ) (s : ParserState) (gwId : Nat)
    (header : ReceivedPacketHeader) (data : List Nat) :
    Option (List Event × ParserState) :=
  if header.nodeAddress = 0 then some ([], s)
  else
    let pktType := header.packetType
    if pktType = 0x31 then
      (handlePowerReport s gwId header.nodeAddress data).map (fun evts => (evts, s))
    else if pktType = 0x07 then
      some (handleStringResponse times s gwId header.nodeAddress data)
    else if pktType = 0x09 then
      some (handleTopologyReport times s gwId header.nodeAddress data)
    else some ([], s)

/-- The embedded-packet loop of `Parser._handle_receive_response`: each
packet's header decode and handling sit in a `try`/`except
(ValueError, IndexError)` whose failure skips just that packet. -/
def pvPacketLoop (times : Nat → ℚ) (s : ParserState) (gwId : Nat)
    (packets : List (List Nat × List Nat)) : List Event × ParserState :=
  packets.foldl (fun acc pkt =>
    match (do
        let header ← receivedPacketHeaderOfBytes pkt.1
        parsePvPacket times acc.2 gwId header pkt.2) with
    | some (evts, s2) => (acc.1 ++ evts, s2)
    | none => acc) ([], s)

/-- The variable-header offset of `Parser._handle_receive_response`:
bits 0x0001/0x0002/0x0004/0x0008 gate one, one, two and two bytes of
auxiliary fields that are skipped when the bit is clear. -/
def rrOffset (statusType : Nat) : Nat :=
  let off1 := if statusType &&& 0x0001 = 0 then 3 else 2
  let off2 := if statusType &&& 0x0002 = 0 then off1 + 1 else off1
  let off3 := if statusType &&& 0x0004 = 0 then off2 + 2 else off2
  if statusType &&& 0x0008 = 0 then off3 + 2 else off3

/-- `Parser._handle_receive_response`: decode the variable header,
update the stored packet number and the slot clock, then extract the
embedded PV packets.  A `none` result is an uncaught exception escaping
`feed` (the slot-clock update is outside any `try`). -/
def handleReceiveResponse (times : Nat → ℚ) (s : ParserState) (f : Frame) :
    Option (ParserState × List Event) :=
  if !f.address.isFrom then some (s, [])
  else
    let gwId := f.address.gatewayId
    match alGet s.rxPacketNumbers gwId with
    | none => some (s, [])
    | some oldPacketNumber =>
        let payload := f.payload
        if payload.length < 4 then some (s, [])
        else
          let statusType := u16be (payload.getD 0 0) (payload.getD 1 0)
          if statusType &&& 0x00E0 ≠ 0x00E0 then some (s, [])
          else
            let off4 := rrOffset statusType
            if off4 ≥ payload.length then some (s, [])
            else
              let pnStep : Option (Nat × Nat) :=
                if statusType &&& 0x0010 = 0 then
                  if off4 + 2 > payload.length then none
                  else some (u16be (payload.getD off4 0) (payload.getD (off4 + 1) 0), off4 + 2)
                else
                  if off4 + 1 > payload.length then none
                  else some (interpretPacketNumberLo (payload.getD off4 0) oldPacketNumber, off4 + 1)
              match pnStep with
              | none => some (s, [])
              | some (packetNumber, off5) =>
                  if off5 + 2 > payload.length then some (s, [])
                  else
                    let slotCounter : SlotCounter :=
                      ⟨u16be (payload.getD off5 0) (payload.getD (off5 + 1) 0)⟩
                    let off6 := off5 + 2
                    let s1 := { s with
                      rxPacketNumbers := alSet s.rxPacketNumbers gwId packetNumber }
                    let (captureTime, capturedRest) := alPop s1.capturedSlotTimes gwId
                    let s2 := { s1 with capturedSlotTimes := capturedRest }
                    let clockStep : Option ParserState :=
                      match captureTime with
                      | none => some s2
                      | some t =>
                          match alGet s2.slotClocks gwId with
                          | some clock => do
                              let clock2 ← slotClockSet clock slotCounter t
                              pure { s2 with slotClocks := alSet s2.slotClocks gwId clock2 }
                          | none => do
                              let clock ← slotClockInit slotCounter t
                              pure { s2 with slotClocks := alSet s2.slotClocks gwId clock }
                    (clockStep).map fun s3 =>
                      let receivedData := payload.drop off6
                      let (evts, s4) := pvPacketLoop times s3 gwId (iterReceivedPackets receivedData)
                      (s4, evts)

/-- `Parser._handle_command_request`. -/
def handleCommandRequest (s : ParserState) (f : Frame) : ParserState × List Event :=
  if f.address.isFrom then (s, [])
  else if f.payload.length < 5 then (s, [])
  else
    let gwId := f.address.gatewayId
    let packetType := f.payload.getD 3 0
    let sequenceNumber := f.payload.getD 4 0
    let s1 := { s with
      commandSequenceNumbers := alSet s.commandSequenceNumbers gwId sequenceNumber }
    let s2 := { s1 with
      commandsAwaiting :=
        alSet s1.commandsAwaiting (gwId, sequenceNumber) (packetType, f.payload.drop 5) }
    (s2, [])

/-- `Parser._handle_node_table_command`: accumulate a correlated
NODE_TABLE page; a completed table replaces the gateway's stored node
table and emits an infrastructure event. -/
def handleNodeTableCommand (times : Nat → ℚ) (s : ParserState) (gwId : Nat)
    (reqPayload respPayload : List Nat) : ParserState × List Event :=
  if reqPayload.length < 2 then (s, [])
  else if respPayload.length < 1 then (s, [])
  else
    let entriesCount := respPayload.getD 0 0
    let entriesData := respPayload.drop 1
    if entriesData.length ≠ entriesCount * 10 then (s, [])
    else
      let entries := (List.range entriesCount).map fun i =>
        (u16be (entriesData.getD (i * 10) 0) (entriesData.getD (i * 10 + 1) 0),
         (entriesData.drop (i * 10 + 2)).take 8)
      let builder := (alGet s.nodeTableBuilders gwId).getD []
      let (result, builder2) := pushNodeTable builder entries
      let s1 := { s with nodeTableBuilders := alSet s.nodeTableBuilders gwId builder2 }
      match result with
      | some tbl =>
          let s2 := { s1 with persistent := { s1.persistent with
            gatewayNodeTables := alSet s1.persistent.gatewayNodeTables gwId tbl } }
          emitInfrastructureEvent times s2
      | none => (s1, [])

/-- `Parser._handle_string_command`. -/
def handleStringCommand (times : Nat → ℚ) (s : ParserState) (gwId : Nat)
    (reqPayload : List Nat) : ParserState × List Event :=
  if reqPayload.length < 2 then (s, [])
  else
    let nodeAddr := u16be (reqPayload.getD 0 0) (reqPayload.getD 1 0)
    let requestStr := bytesToStr (reqPayload.drop 2)
    let (t, s1) := takeNow times s
    (s1, [.stringEvent gwId nodeAddr "request" requestStr t])

/-- `Parser._handle_command_pair`. -/
def handleCommandPair (times : Nat → ℚ) (s : ParserState) (gwId : Nat)
    (reqType : Nat) (reqPayload : List Nat) (respType : Nat) (respPayload : List Nat) :
    ParserState × List Event :=
  if reqType = 0x26 ∧ respType = 0x27 then
    handleNodeTableCommand times s gwId reqPayload respPayload
  else if reqType = 0x06 ∧ respType = 0x07 then
    handleStringCommand times s gwId reqPayload
  else (s, [])

/-- `Parser._handle_command_response`: pop the stored request by
`(gateway, sequence)`; unmatched responses are ignored. -/
def handleCommandResponse (times : Nat → ℚ) (s : ParserState) (f : Frame) :
    ParserState × List Event :=
  if !f.address.isFrom then (s, [])
  else if f.payload.length < 5 then (s, [])
  else
    let gwId := f.address.gatewayId
    let respPacketType := f.payload.getD 3 0
    let respSeq := f.payload.getD 4 0
    let (requestData, rest) := alPop s.commandsAwaiting (gwId, respSeq)
    let s1 := { s with commandsAwaiting := rest }
    match requestData with
    | none => (s1, [])
    | some (reqType, reqPayload) =>
        handleCommandPair times s1 gwId reqType reqPayload respPacketType (f.payload.drop 5)

/-! ## Enumeration handlers -/

/-- `Parser._handle_enumeration_start`. -/
def handleEnumerationStart (s : ParserState) (f : Frame) : ParserState × List Event :=
  if f.address.isFrom then (s, [])
  else if f.address.gatewayId ≠ 0 then (s, [])
  else if f.payload.length < 6 then (s, [])
  else
    let enumAddr := Address.fromBytesPair (f.payload.getD 4 0) (f.payload.getD 5 0)
    ({ s with enumState := some ⟨enumAddr.gatewayId, [], []⟩ }, [])

/-- `Parser._handle_enumeration_response`. -/
def handleEnumerationResponse (times : Nat → ℚ) (s : ParserState) (f : Frame) :
    ParserState × List Event :=
  if !f.address.isFrom then (s, [])
  else if f.payload.length < 8 then (s, [])
  else
    let longAddress := f.payload.take 8
    let gwId := f.address.gatewayId
    match s.enumState with
    | some es =>
        if gwId ≠ es.enumerationGatewayId then
          ({ s with enumState := some { es with
              gatewayIdentities := alSet es.gatewayIdentities gwId longAddress } }, [])
        else (s, [])
    | none =>
        let s1 := { s with persistent := { s.persistent with
          gatewayIdentities := alSet s.persistent.gatewayIdentities gwId longAddress } }
        emitInfrastructureEvent times s1

/-- `Parser._handle_identify_response` (same behavior as the
enumeration response, from the source's twin function). -/
def handleIdentifyResponse (times : Nat → ℚ) (s : ParserState) (f : Frame) :
    ParserState × List Event :=
  if !f.address.isFrom then (s, [])
  else if f.payload.length < 8 then (s, [])
  else
    let longAddress := f.payload.take 8
    let gwId := f.address.gatewayId
    match s.enumState with
    | some es =>
        if gwId ≠ es.enumerationGatewayId then
          ({ s with enumState := some { es with
              gatewayIdentities := alSet es.gatewayIdentities gwId longAddress } }, [])
        else (s, [])
    | none =>
        let s1 := { s with persistent := { s.persistent with
          gatewayIdentities := alSet s.persistent.gatewayIdentities gwId longAddress } }
        emitInfrastructureEvent times s1

/-- `Parser._handle_version_response`.  Note: unlike the identity
handlers, the provisional branch records a version for every gateway,
including the enumerating one. -/
def handleVersionResponse (times : Nat → ℚ) (s : ParserState) (f : Frame) :
    ParserState × List Event :=
  if !f.address.isFrom then (s, [])
  else
    let version := bytesToStr f.payload
    if version = "" then (s, [])
    else
      let gwId := f.address.gatewayId
      match s.enumState with
      | some es =>
          ({ s with enumState := some { es with
              gatewayVersions := alSet es.gatewayVersions gwId version } }, [])
      | none =>
          let s1 := { s with persistent := { s.persistent with
            gatewayVersions := alSet s.persistent.gatewayVersions gwId version } }
          emitInfrastructureEvent times s1

/-- `Parser._handle_enumeration_end`: commit the provisional buffers
wholesale and emit one infrastructure event. -/
def handleEnumerationEnd (times : Nat → ℚ) (s : ParserState) (f : Frame) :
    ParserState × List Event :=
  if !f.address.isFrom then (s, [])
  else
    match s.enumState with
    | some es =>
        let s1 := { s with
          persistent := { s.persistent with
            gatewayIdentities := es.gatewayIdentities
            gatewayVersions := es.gatewayVersions }
          enumState := none }
        emitInfrastructureEvent times s1
    | none => (s, [])

/-! ## Dispatch and feed -/

/-- `Parser._dispatch_frame`: route by frame type; unknown types (a
`ValueError` from the enum conversion, caught) and known-but-unhandled
types produce no events. -/
def dispatchFrame (times : Nat → ℚ) (s : ParserState) (f : Frame) :
    Option (ParserState × List Event) :=
  if f.frameType = 0x0148 then some (handleReceiveRequest times s f)
  else if f.frameType = 0x0149 then handleReceiveResponse times s f
  else if f.frameType = 0x0B0F then some (handleCommandRequest s f)
  else if f.frameType = 0x0B10 then some (handleCommandResponse times s f)
  else if f.frameType = 0x0014 then some (handleEnumerationStart s f)
  else if f.frameType = 0x0039 then some (handleEnumerationResponse times s f)
  else if f.frameType = 0x003B then some (handleIdentifyResponse times s f)
  else if f.frameType = 0x000B then some (handleVersionResponse times s f)
  else if f.frameType = 0x0006 then some (handleEnumerationEnd times s f)
  else some (s, [])

/-- One byte of `Parser.feed`: drive the frame state machine and, on a
completed frame, count it and dispatch it. -/
def feedStep (times : Nat → ℚ) (s : ParserState) (b : Nat) :
    Option (ParserState × List Event) :=
  let (s1, frame) := accumStep s b
  match frame with
  | none => some (s1, [])
  | some f =>
      let s2 := { s1 with counters := { s1.counters with
        framesReceived := s1.counters.framesReceived + 1 } }
      dispatchFrame times s2 f

/-- `Parser.feed`: fold `feedStep` over the input, concatenating the
events of each byte.  A `none` result is an exception escaping `feed`
(the Python caller then sees no events at all). -/
def feedBytes (times : Nat → ℚ) (s : ParserState) (data : List Nat) :
    Option (ParserState × List Event) :=
  match data with
  | [] => some (s, [])
  | b :: rest =>
      match feedStep times s b with
      | none => none
      | some (s1, e1) =>
          match feedBytes times s1 rest with
          | none => none
          | some (s2, e2) => some (s2, e1 ++ e2)

/-! ## Energy integrator (`custom_components/pytap/energy.py`)

A `datetime` value here is a calendar day number together with a
(rational) number of seconds within the day; `now.date().isoformat()`
is the day number, `(a - b).total_seconds()` is the difference of the
absolute second counts.  The source's string field `daily_reset_date`
(initially `""`) is an `Option ℤ` (initially `none`).  The source's
`EnergyAccumulator` dataclass has exactly the five fields below — in
particular it has no `readings_today` field, although the repository's
own tests (`tests/test_energy.py`) and the coordinator
(`coordinator.py`) read and construct one. -/

def ENERGY_GAP_THRESHOLD_SECONDS : ℚ := 120

def ENERGY_LOW_POWER_THRESHOLD_W : ℚ := 1

/-- A naive Python `datetime`: calendar day plus seconds of day. -/
structure PyDateTime where
  day : ℤ
  sod : ℚ
  deriving DecidableEq, Repr

/-- Absolute seconds, the basis of `timedelta.total_seconds()`. -/
def PyDateTime.toSeconds (t : PyDateTime) : ℚ := (t.day : ℚ) * 86400 + t.sod

structure EnergyAccumulator where
  dailyEnergyWh : ℚ
  totalEnergyWh : ℚ
  dailyResetDate : Option ℤ
  lastPowerW : ℚ
  lastReadingTs : Option PyDateTime
  deriving DecidableEq, Repr

def EnergyAccumulator.init : EnergyAccumulator := ⟨0, 0, none, 0, none⟩

structure EnergyUpdateResult where
  incrementWh : ℚ
  discardedGapDuringProduction : Bool
  deriving DecidableEq, Repr

/-- `accumulate_energy`: trapezoidal integration with the daily reset
and the gap policy, mutating the accumulator (returned alongside the
result). -/
def accumulateEnergy (acc : EnergyAccumulator) (power : ℚ) (now : PyDateTime)
    (gapThreshold : ℚ) (lowPowerThreshold : ℚ) :
    EnergyUpdateResult × EnergyAccumulator :=
  let powerW := max power 0
  let today := now.day
  let acc1 :=
    if acc.dailyResetDate ≠ some today then
      { acc with dailyEnergyWh := 0, dailyResetDate := some today }
    else acc
  let step : (ℚ × Bool) × EnergyAccumulator :=
    match acc1.lastReadingTs with
    | none => ((0, false), acc1)
    | some lastTs =>
        let deltaSeconds := now.toSeconds - lastTs.toSeconds
        let previousPowerW := max acc1.lastPowerW 0
        if 0 < deltaSeconds ∧ deltaSeconds ≤ gapThreshold then
          let incrementWh := ((previousPowerW + powerW) / 2) * (deltaSeconds / 3600)
          ((incrementWh, false),
           { acc1 with
             dailyEnergyWh := acc1.dailyEnergyWh + incrementWh
             totalEnergyWh := acc1.totalEnergyWh + incrementWh })
        else if gapThreshold < deltaSeconds ∧
            (previousPowerW > lowPowerThreshold ∨ powerW > lowPowerThreshold) then
          ((0, true), acc1)
        else ((0, false), acc1)
  (⟨step.1.1, step.1.2⟩,
   { step.2 with lastPowerW := powerW, lastReadingTs := some now })

/-! ## Association-list helper lemmas -/

theorem alPop_of_alGet_none {α β : Type} [DecidableEq α] (l : List (α × β)) (k : α)
    (h : alGet l k = none) : alPop l k = (none, l) := by
  induction l with
  | nil => simp [alPop]
  | cons hd tl ih =>
      obtain ⟨k1, v1⟩ := hd
      by_cases hk : k1 = k
      · simp [alGet, hk] at h
      · simp only [alGet, if_neg hk] at h
        simp [alPop, hk, ih h]

/-! ## CRC reference vectors

The repository's own `pytap/tests/test_crc.py` pins the CRC function at
these values; the spec-modelled `crc` reproduces all of them. -/

theorem crc_empty_buffer : crc [] = 0x8408 := by decide

theorem crc_single_byte : crc [0x92] = 15191 := by decide

theorem crc_two_bytes : crc [0x92, 0x01] = 14216 := by decide

theorem crc_known_frame : crc [0x12, 0x01, 0x0B, 0x00, 0x01] = u16le 0xFE 0x83 := by decide

/-! ## Concrete byte traces used as counterexamples and failing inputs

Each frame is `7E 07`, a CRC-terminated body, `7E 08`; the CRC values
are validated by the embedded `crc` itself during evaluation. -/

/-- The constant time oracle (wall-clock values are irrelevant to the
properties evaluated on the concrete traces). -/
def zeroTimes : Nat → ℚ := fun _ => 0

/-- A RECEIVE_REQUEST to gateway 1 followed by a RECEIVE_RESPONSE from
gateway 1 whose slot counter is 0xEEE0 (epoch 3, slot number 12000):
the slot-clock table index is 48, past the end of the 48-entry table. -/
def oversizedSlotTrace : List Nat :=
  [0x7E, 0x07, 0x00, 0x01, 0x01, 0x48, 0x00, 0x00, 0x00, 0x00, 0x00, 0x15, 0x9F, 0x7E, 0x08,
   0x7E, 0x07, 0x80, 0x01, 0x01, 0x49, 0x00, 0xFF, 0x00, 0xEE, 0xE0, 0xBC, 0x0E, 0x7E, 0x08]

/-- An ENUMERATION_START_REQUEST targeting gateway 5, then a
VERSION_RESPONSE from gateway 5 itself. -/
def enumVersionTrace : List Nat :=
  [0x7E, 0x07, 0x00, 0x00, 0x00, 0x14, 0x00, 0x00, 0x00, 0x00, 0x00, 0x05, 0x09, 0x1F, 0x7E, 0x08,
   0x7E, 0x07, 0x80, 0x05, 0x00, 0x0B, 0x31, 0x02, 0x25, 0x7E, 0x08]

/-- A NODE_TABLE command pair pushing one page, then an enumeration
cycle in which a second NODE_TABLE pair (count 0, finalising) completes
before the ENUMERATION_END_RESPONSE. -/
def enumNodeTableTrace : List Nat :=
  [0x7E, 0x07, 0x00, 0x01, 0x0B, 0x0F, 0x00, 0x00, 0x00, 0x26, 0x01, 0x00, 0x10, 0x0C, 0x14, 0x7E, 0x08,
   0x7E, 0x07, 0x80, 0x01, 0x0B, 0x10, 0x00, 0x00, 0x00, 0x27, 0x01, 0x01, 0x00, 0x10,
     0x04, 0xC0, 0x5B, 0x30, 0x00, 0x02, 0xBE, 0x16, 0x4A, 0xCB, 0x7E, 0x08,
   0x7E, 0x07, 0x00, 0x00, 0x00, 0x14, 0x00, 0x00, 0x00, 0x00, 0x00, 0x05, 0x09, 0x1F, 0x7E, 0x08,
   0x7E, 0x07, 0x00, 0x01, 0x0B, 0x0F, 0x00, 0x00, 0x00, 0x26, 0x02, 0x00, 0x00, 0xE9, 0xEB, 0x7E, 0x08,
   0x7E, 0x07, 0x80, 0x01, 0x0B, 0x10, 0x00, 0x00, 0x00, 0x27, 0x02, 0x00, 0x3B, 0xD3, 0x7E, 0x08,
   0x7E, 0x07, 0x80, 0x01, 0x00, 0x06, 0xD1, 0x98, 0x7E, 0x08]

/-! ## C9 — totality of `feed` -/

/-- C9: the claim states that `feed` returns normally on every byte
sequence and never raises.  It does not hold of the code: on this
CRC-valid trace the RECEIVE_RESPONSE carries slot counter 0xEEE0
(epoch 3, slot number 12000, which the wire format permits but the
48-entry slot-clock table does not), and `SlotClock._initialize` raises
an uncaught `IndexError` (`self._times[48] = base`) that escapes
`feed`.  The embedded `feedBytes` accordingly evaluates to `none` (the
escaped exception) on the trace. -/
theorem feed_crashes_on_oversized_slot_counter :
    feedBytes zeroTimes initState oversizedSlotTrace = none := by decide

/-! ## C10 — RECEIVE_RESPONSE without a stored packet number -/

/-- C10: a RECEIVE_RESPONSE for a gateway with no stored packet number
(no RECEIVE_REQUEST observed) produces no events and leaves the parser
state completely unchanged. -/
theorem receive_response_without_request_is_noop (times : Nat → ℚ)
    (s : ParserState) (f : Frame) (hft : f.frameType = 0x0149)
    (hnone : alGet s.rxPacketNumbers f.address.gatewayId = none) :
    dispatchFrame times s f = some (s, []) := by
  rw [dispatchFrame, hft]
  norm_num
  rw [handleReceiveResponse]
  cases hdir : f.address.isFrom with
  | false => simp [hdir]
  | true => simp [hdir, hnone]

/-- Witness for C10 at a concrete frame and the fresh parser state. -/
theorem receive_response_without_request_is_noop_witness :
    (⟨⟨1, true⟩, 0x0149, [0, 0, 0, 0]⟩ : Frame).frameType = 0x0149 ∧
    alGet initState.rxPacketNumbers (⟨⟨1, true⟩, 0x0149, [0, 0, 0, 0]⟩ : Frame).address.gatewayId = none ∧
    dispatchFrame zeroTimes initState ⟨⟨1, true⟩, 0x0149, [0, 0, 0, 0]⟩ = some (initState, []) :=
  ⟨rfl, rfl,
   receive_response_without_request_is_noop zeroTimes initState
     ⟨⟨1, true⟩, 0x0149, [0, 0, 0, 0]⟩ rfl rfl⟩

/-! ## Energy helper lemmas -/

/-- After any accumulation step the accumulator records the clamped
power, the sample time, and the sample's calendar date. -/
theorem accumulateEnergy_post (acc : EnergyAccumulator) (power : ℚ)
    (now : PyDateTime) (g l : ℚ) :
    (accumulateEnergy acc power now g l).2.lastPowerW = max power 0 ∧
    (accumulateEnergy acc power now g l).2.lastReadingTs = some now ∧
    (accumulateEnergy acc power now g l).2.dailyResetDate = some now.day := by
  rw [accumulateEnergy]
  by_cases hr : acc.dailyResetDate ≠ some now.day <;>
    simp only [hr, if_pos, if_neg, ite_true, ite_false, if_true, if_false] <;>
    [skip; rw [not_not] at hr] <;>
    rcases hlast : acc.lastReadingTs with _ | lastTs <;>
    simp [hlast, hr] <;> split_ifs <;> simp [hr]

/-! ## C4 — `readings_today` bookkeeping -/

/-- C4: the claim states that each accepted sample increments a
`readings_today` counter, which resets with the calendar date.  The
source's `EnergyAccumulator` has no such field (the embedding's record
carries exactly the source dataclass's fields), and `accumulate_energy`
maintains no reading count, although the repository's own tests
(`test_readings_today_increments_per_report`,
`test_readings_today_resets_on_new_day`) and the coordinator require
one.  This theorem evaluates the code on the test's own sample
sequence: the complete resulting state is the record below — correct
energies, no reading count anywhere. -/
theorem energy_accumulator_has_no_reading_count :
    (accumulateEnergy
      (accumulateEnergy
        (accumulateEnergy EnergyAccumulator.init 100 ⟨0, 43200⟩
          ENERGY_GAP_THRESHOLD_SECONDS ENERGY_LOW_POWER_THRESHOLD_W).2
        110 ⟨0, 43230⟩ ENERGY_GAP_THRESHOLD_SECONDS ENERGY_LOW_POWER_THRESHOLD_W).2
      120 ⟨0, 43260⟩ ENERGY_GAP_THRESHOLD_SECONDS ENERGY_LOW_POWER_THRESHOLD_W).2 =
    ⟨11 / 6, 11 / 6, some 0, 120, some ⟨0, 43260⟩⟩ := by
  have h1 : accumulateEnergy EnergyAccumulator.init 100 ⟨0, 43200⟩
      ENERGY_GAP_THRESHOLD_SECONDS ENERGY_LOW_POWER_THRESHOLD_W =
      (⟨0, false⟩, ⟨0, 0, some 0, 100, some ⟨0, 43200⟩⟩) := by
    simp only [accumulateEnergy, EnergyAccumulator.init]
    split_ifs with h
    · norm_num
    · simp at h
  have h2 : accumulateEnergy (⟨0, 0, some 0, 100, some ⟨0, 43200⟩⟩ : EnergyAccumulator)
      110 ⟨0, 43230⟩ ENERGY_GAP_THRESHOLD_SECONDS ENERGY_LOW_POWER_THRESHOLD_W =
      (⟨7 / 8, false⟩, ⟨7 / 8, 7 / 8, some 0, 110, some ⟨0, 43230⟩⟩) := by
    simp only [accumulateEnergy]
    split_ifs with h <;>
      norm_num [PyDateTime.toSeconds, ENERGY_GAP_THRESHOLD_SECONDS,
        ENERGY_LOW_POWER_THRESHOLD_W] at *
  have h3 : accumulateEnergy (⟨7 / 8, 7 / 8, some 0, 110, some ⟨0, 43230⟩⟩ : EnergyAccumulator)
      120 ⟨0, 43260⟩ ENERGY_GAP_THRESHOLD_SECONDS ENERGY_LOW_POWER_THRESHOLD_W =
      (⟨23 / 24, false⟩, ⟨11 / 6, 11 / 6, some 0, 120, some ⟨0, 43260⟩⟩) := by
    simp only [accumulateEnergy]
    split_ifs with h <;>
      norm_num [PyDateTime.toSeconds, ENERGY_GAP_THRESHOLD_SECONDS,
        ENERGY_LOW_POWER_THRESHOLD_W] at *
  rw [h1, h2, h3]

/-! ## C8 — trapezoidal increment over a small gap -/

/-- C8: for `p ≥ 0` and `0 < Δs ≤ 120`, feeding `(p, t0)` then
`(p, t0 + Δs)` with both samples on the same calendar date makes the
second call return an increment of exactly `p · Δs / 3600` Wh and add
it to both `daily_wh` and `total_wh`. -/
theorem energy_trapezoid_increment (acc : EnergyAccumulator) (p : ℚ)
    (t0 t1 : PyDateTime) (ds : ℚ)
    (hp : 0 ≤ p) (hds : t1.toSeconds - t0.toSeconds = ds)
    (h1 : 0 < ds) (h2 : ds ≤ ENERGY_GAP_THRESHOLD_SECONDS)
    (hdate : t1.day = t0.day) :
    (accumulateEnergy (accumulateEnergy acc p t0 ENERGY_GAP_THRESHOLD_SECONDS
        ENERGY_LOW_POWER_THRESHOLD_W).2 p t1 ENERGY_GAP_THRESHOLD_SECONDS
        ENERGY_LOW_POWER_THRESHOLD_W).1.incrementWh = p * ds / 3600 ∧
    (accumulateEnergy (accumulateEnergy acc p t0 ENERGY_GAP_THRESHOLD_SECONDS
        ENERGY_LOW_POWER_THRESHOLD_W).2 p t1 ENERGY_GAP_THRESHOLD_SECONDS
        ENERGY_LOW_POWER_THRESHOLD_W).2.dailyEnergyWh =
      (accumulateEnergy acc p t0 ENERGY_GAP_THRESHOLD_SECONDS
        ENERGY_LOW_POWER_THRESHOLD_W).2.dailyEnergyWh + p * ds / 3600 ∧
    (accumulateEnergy (accumulateEnergy acc p t0 ENERGY_GAP_THRESHOLD_SECONDS
        ENERGY_LOW_POWER_THRESHOLD_W).2 p t1 ENERGY_GAP_THRESHOLD_SECONDS
        ENERGY_LOW_POWER_THRESHOLD_W).2.totalEnergyWh =
      (accumulateEnergy acc p t0 ENERGY_GAP_THRESHOLD_SECONDS
        ENERGY_LOW_POWER_THRESHOLD_W).2.totalEnergyWh + p * ds / 3600 := by
  obtain ⟨hpw, hts, hdt⟩ := accumulateEnergy_post acc p t0
    ENERGY_GAP_THRESHOLD_SECONDS ENERGY_LOW_POWER_THRESHOLD_W
  set a1 := (accumulateEnergy acc p t0 ENERGY_GAP_THRESHOLD_SECONDS
    ENERGY_LOW_POWER_THRESHOLD_W).2 with ha1
  have hmax : max p 0 = p := max_eq_left hp
  rw [hmax] at hpw
  have hcond : 0 < t1.toSeconds - t0.toSeconds ∧
      t1.toSeconds - t0.toSeconds ≤ ENERGY_GAP_THRESHOLD_SECONDS := by
    rw [hds]; exact ⟨h1, h2⟩
  have hnoreset : ¬ a1.dailyResetDate ≠ some t1.day := by
    rw [hdt, hdate]; exact not_ne_iff.mpr rfl
  conv_lhs => rw [accumulateEnergy]
  rw [accumulateEnergy]
  simp only [if_neg hnoreset, hts, hpw, hmax]
  rw [if_pos hcond, hds]
  refine ⟨by ring, by ring, by ring⟩

/-- Witness for C8: 100 W over a 60-second interval on one day adds
exactly 100·60/3600 = 5/3 Wh (the repository's `test_trapezoid_basic`
scenario). -/
theorem energy_trapezoid_increment_witness :
    (0 : ℚ) ≤ 100 ∧
    (⟨0, 43260⟩ : PyDateTime).toSeconds - (⟨0, 43200⟩ : PyDateTime).toSeconds = 60 ∧
    (0 : ℚ) < 60 ∧ (60 : ℚ) ≤ ENERGY_GAP_THRESHOLD_SECONDS ∧
    (⟨0, 43260⟩ : PyDateTime).day = (⟨0, 43200⟩ : PyDateTime).day ∧
    ((accumulateEnergy (accumulateEnergy EnergyAccumulator.init 100 ⟨0, 43200⟩
        ENERGY_GAP_THRESHOLD_SECONDS ENERGY_LOW_POWER_THRESHOLD_W).2 100 ⟨0, 43260⟩
        ENERGY_GAP_THRESHOLD_SECONDS ENERGY_LOW_POWER_THRESHOLD_W).1.incrementWh =
      100 * 60 / 3600 ∧
    (accumulateEnergy (accumulateEnergy EnergyAccumulator.init 100 ⟨0, 43200⟩
        ENERGY_GAP_THRESHOLD_SECONDS ENERGY_LOW_POWER_THRESHOLD_W).2 100 ⟨0, 43260⟩
        ENERGY_GAP_THRESHOLD_SECONDS ENERGY_LOW_POWER_THRESHOLD_W).2.dailyEnergyWh =
      (accumulateEnergy EnergyAccumulator.init 100 ⟨0, 43200⟩
        ENERGY_GAP_THRESHOLD_SECONDS ENERGY_LOW_POWER_THRESHOLD_W).2.dailyEnergyWh +
        100 * 60 / 3600 ∧
    (accumulateEnergy (accumulateEnergy EnergyAccumulator.init 100 ⟨0, 43200⟩
        ENERGY_GAP_THRESHOLD_SECONDS ENERGY_LOW_POWER_THRESHOLD_W).2 100 ⟨0, 43260⟩
        ENERGY_GAP_THRESHOLD_SECONDS ENERGY_LOW_POWER_THRESHOLD_W).2.totalEnergyWh =
      (accumulateEnergy EnergyAccumulator.init 100 ⟨0, 43200⟩
        ENERGY_GAP_THRESHOLD_SECONDS ENERGY_LOW_POWER_THRESHOLD_W).2.totalEnergyWh +
        100 * 60 / 3600) :=
  ⟨by norm_num, by norm_num [PyDateTime.toSeconds], by norm_num,
   by norm_num [ENERGY_GAP_THRESHOLD_SECONDS], rfl,
   energy_trapezoid_increment EnergyAccumulator.init 100 ⟨0, 43200⟩ ⟨0, 43260⟩ 60
     (by norm_num) (by norm_num [PyDateTime.toSeconds]) (by norm_num)
     (by norm_num [ENERGY_GAP_THRESHOLD_SECONDS]) rfl⟩

/-! ## C5 — responses from the enumerating gateway during a cycle -/

/-- C5 counterexample: the claim states that during an enumeration
cycle neither provisional map ever gains an entry for the enumerating
gateway.  Feeding an ENUMERATION_START_REQUEST that targets gateway 5
and then a VERSION_RESPONSE from gateway 5 itself leaves the
provisional version map with an entry for gateway 5: only the identity
handlers exclude the enumerating gateway, the version handler does
not. -/
theorem version_of_enumerating_gateway_recorded :
    (feedBytes zeroTimes initState enumVersionTrace).map
      (fun p => (p.1.enumState, p.2)) =
    some (some ⟨5, [], [(5, "1")]⟩, []) := by decide

/-- C5 as amended: identity responses (ENUMERATION_RESPONSE and
IDENTIFY_RESPONSE) from the enumerating gateway are ignored — the
parser state is returned unchanged — while a VERSION_RESPONSE is
recorded into the provisional version buffer for every gateway,
including the enumerating one. -/
theorem enum_identity_ignored_version_recorded :
    (∀ (times : Nat → ℚ) (s : ParserState) (f : Frame) (es : EnumerationState),
      s.enumState = some es → f.address.gatewayId = es.enumerationGatewayId →
      handleEnumerationResponse times s f = (s, []) ∧
      handleIdentifyResponse times s f = (s, [])) ∧
    (∀ (times : Nat → ℚ) (s : ParserState) (f : Frame) (es : EnumerationState),
      s.enumState = some es → f.address.isFrom = true → bytesToStr f.payload ≠ "" →
      handleVersionResponse times s f =
        ({ s with enumState := some ⟨es.enumerationGatewayId, es.gatewayIdentities,
            alSet es.gatewayVersions f.address.gatewayId (bytesToStr f.payload)⟩ }, [])) := by
  constructor
  · intro times s f es hes hgw
    constructor
    · rw [handleEnumerationResponse]
      cases hdir : f.address.isFrom
      · simp
      · simp [hes, hgw]
    · rw [handleIdentifyResponse]
      cases hdir : f.address.isFrom
      · simp
      · simp [hes, hgw]
  · intro times s f es hes hdir hver
    rw [handleVersionResponse, hdir]
    simp [hes, hver]

/-- Witness for the amended C5, at a concrete mid-cycle state (cycle
targeting gateway 5) with concrete identity and version frames from
gateway 5. -/
theorem enum_identity_ignored_version_recorded_witness :
    ({ initState with enumState := some ⟨5, [], []⟩ } : ParserState).enumState =
        some (⟨5, [], []⟩ : EnumerationState) ∧
    (⟨⟨5, true⟩, 0x0039, [1, 2, 3, 4, 5, 6, 7, 8]⟩ : Frame).address.gatewayId =
        (⟨5, [], []⟩ : EnumerationState).enumerationGatewayId ∧
    (⟨⟨5, true⟩, 0x000B, [0x31]⟩ : Frame).address.isFrom = true ∧
    bytesToStr (⟨⟨5, true⟩, 0x000B, [0x31]⟩ : Frame).payload ≠ "" ∧
    handleEnumerationResponse zeroTimes { initState with enumState := some ⟨5, [], []⟩ }
        ⟨⟨5, true⟩, 0x0039, [1, 2, 3, 4, 5, 6, 7, 8]⟩ =
      ({ initState with enumState := some ⟨5, [], []⟩ }, []) ∧
    handleVersionResponse zeroTimes { initState with enumState := some ⟨5, [], []⟩ }
        ⟨⟨5, true⟩, 0x000B, [0x31]⟩ =
      ({ initState with enumState := some ⟨5, [], [(5, "1")]⟩ }, []) :=
  ⟨rfl, rfl, rfl, by decide,
   (enum_identity_ignored_version_recorded.1 zeroTimes
     { initState with enumState := some ⟨5, [], []⟩ }
     ⟨⟨5, true⟩, 0x0039, [1, 2, 3, 4, 5, 6, 7, 8]⟩ ⟨5, [], []⟩ rfl rfl).1,
   enum_identity_ignored_version_recorded.2 zeroTimes
     { initState with enumState := some ⟨5, [], []⟩ }
     ⟨⟨5, true⟩, 0x000B, [0x31]⟩ ⟨5, [], []⟩ rfl rfl (by decide)⟩

/-! ## C6 — node-table finalisation -/

/-- C6 counterexample: the claim states that every correlated count-0
NODE_TABLE response makes the accumulated map (the union of the pages
pushed since the last finalisation) replace the gateway's stored table
and emits an InfrastructureEvent.  After a one-entry page and a first
finalisation (which installs the table and emits one event), a second
count-0 response arrives with an empty accumulator: the union of pages
since the last finalisation is the empty map, yet the stored table is
left unchanged (not replaced by the empty map) and no event is emitted
— `NodeTableBuilder.push` returns `None` for an empty result. -/
theorem node_table_empty_finalise_counterexample :
    (handleNodeTableCommand zeroTimes
      (handleNodeTableCommand zeroTimes
        (handleNodeTableCommand zeroTimes initState 1 [0, 16]
          [1, 0, 16, 4, 192, 91, 48, 0, 2, 190, 22]).1 1 [0, 0] [0]).1 1 [0, 0] [0]).2 = [] ∧
    (handleNodeTableCommand zeroTimes
      (handleNodeTableCommand zeroTimes
        (handleNodeTableCommand zeroTimes initState 1 [0, 16]
          [1, 0, 16, 4, 192, 91, 48, 0, 2, 190, 22]).1 1 [0, 0] [0]).1 1 [0, 0]
        [0]).1.persistent.gatewayNodeTables =
      [(1, [(16, [4, 192, 91, 48, 0, 2, 190, 22])])] ∧
    (handleNodeTableCommand zeroTimes
      (handleNodeTableCommand zeroTimes initState 1 [0, 16]
        [1, 0, 16, 4, 192, 91, 48, 0, 2, 190, 22]).1 1 [0, 0]
      [0]).1.nodeTableBuilders = [(1, [])] ∧
    (handleNodeTableCommand zeroTimes
      (handleNodeTableCommand zeroTimes initState 1 [0, 16]
        [1, 0, 16, 4, 192, 91, 48, 0, 2, 190, 22]).1 1 [0, 0]
      [0]).2.countP Event.isInfrastructure = 1 := by decide

/-- C6 as amended: a correlated count-0 NODE_TABLE response finalises
the accumulation when at least one entry has been accumulated — the
accumulated map replaces the gateway's stored node table, the
accumulator is cleared, and exactly one InfrastructureEvent is emitted;
a count-0 response with an empty accumulator is a no-op (no
replacement, no event); a malformed response whose entry bytes differ
from count·10 is dropped without mutating anything. -/
theorem node_table_finalise :
    (∀ (times : Nat → ℚ) (s : ParserState) (gwId : Nat) (req resp : List Nat),
      2 ≤ req.length → resp.length = 1 → resp.getD 0 0 = 0 →
      (alGet s.nodeTableBuilders gwId).getD [] ≠ [] →
      (handleNodeTableCommand times s gwId req resp).1.persistent.gatewayNodeTables =
        alSet s.persistent.gatewayNodeTables gwId
          ((alGet s.nodeTableBuilders gwId).getD []) ∧
      alGet (handleNodeTableCommand times s gwId req resp).1.nodeTableBuilders gwId =
        some [] ∧
      (handleNodeTableCommand times s gwId req resp).2.countP Event.isInfrastructure = 1 ∧
      (handleNodeTableCommand times s gwId req resp).2.length = 1) ∧
    (∀ (times : Nat → ℚ) (s : ParserState) (gwId : Nat) (req resp : List Nat),
      2 ≤ req.length → resp.length = 1 → resp.getD 0 0 = 0 →
      (alGet s.nodeTableBuilders gwId).getD [] = [] →
      (handleNodeTableCommand times s gwId req resp).1.persistent =
        s.persistent ∧
      (handleNodeTableCommand times s gwId req resp).2 = []) ∧
    (∀ (times : Nat → ℚ) (s : ParserState) (gwId : Nat) (req resp : List Nat),
      2 ≤ req.length → 1 ≤ resp.length →
      (resp.drop 1).length ≠ (resp.getD 0 0) * 10 →
      handleNodeTableCommand times s gwId req resp = (s, [])) := by
  refine ⟨?_, ?_, ?_⟩
  · intro times s gwId req resp hreq hresp hcount hbuilder
    rw [handleNodeTableCommand]
    rw [if_neg (by omega), if_neg (by omega)]
    have hdata : (resp.drop 1).length = resp.getD 0 0 * 10 := by
      rw [List.length_drop, hresp, hcount]
    rw [if_neg (by rw [hdata]; exact fun h => h rfl)]
    simp only [hcount, List.range_zero, List.map_nil, pushNodeTable, List.isEmpty_nil,
      if_pos, ite_true]
    rcases hb : (alGet s.nodeTableBuilders gwId).getD [] with _ | ⟨hd, tl⟩
    · exact absurd hb hbuilder
    · simp [emitInfrastructureEvent, takeNow, alGet_alSet, Event.isInfrastructure,
        List.countP, List.countP.go]
  · intro times s gwId req resp hreq hresp hcount hbuilder
    rw [handleNodeTableCommand]
    rw [if_neg (by omega), if_neg (by omega)]
    have hdata : (resp.drop 1).length = resp.getD 0 0 * 10 := by
      rw [List.length_drop, hresp, hcount]
    rw [if_neg (by rw [hdata]; exact fun h => h rfl)]
    simp only [hcount, List.range_zero, List.map_nil, pushNodeTable, List.isEmpty_nil,
      if_pos, ite_true]
    rw [hbuilder]
    simp
  · intro times s gwId req resp hreq hresp hmal
    rw [handleNodeTableCommand]
    rw [if_neg (by omega), if_neg (by omega), if_pos hmal]

/-- Witness for the amended C6 at concrete states: a builder holding
one entry for gateway 1, an empty builder, and a malformed two-entry
response carrying only one entry's bytes. -/
theorem node_table_finalise_witness :
    2 ≤ ([0, 16] : List Nat).length ∧ ([0] : List Nat).length = 1 ∧
    ([0] : List Nat).getD 0 0 = 0 ∧
    (alGet ({ initState with nodeTableBuilders :=
        [(1, [(16, [4, 192, 91, 48, 0, 2, 190, 22])])] } : ParserState).nodeTableBuilders
        1).getD [] ≠ [] ∧
    (handleNodeTableCommand zeroTimes { initState with nodeTableBuilders :=
        [(1, [(16, [4, 192, 91, 48, 0, 2, 190, 22])])] } 1 [0, 16]
        [0]).1.persistent.gatewayNodeTables =
      alSet initState.persistent.gatewayNodeTables 1 [(16, [4, 192, 91, 48, 0, 2, 190, 22])] ∧
    (alGet initState.nodeTableBuilders 2).getD [] = [] ∧
    (handleNodeTableCommand zeroTimes initState 2 [0, 16] [0]).2 = [] ∧
    ((List.drop 1 [2, 0, 16, 4, 192, 91, 48, 0, 2, 190, 22]).length ≠
        (List.getD [2, 0, 16, 4, 192, 91, 48, 0, 2, 190, 22] 0 0) * 10) ∧
    handleNodeTableCommand zeroTimes initState 3 [0, 16]
        [2, 0, 16, 4, 192, 91, 48, 0, 2, 190, 22] = (initState, []) :=
  ⟨by decide, rfl, rfl, by decide,
   (node_table_finalise.1 zeroTimes { initState with nodeTableBuilders :=
       [(1, [(16, [4, 192, 91, 48, 0, 2, 190, 22])])] } 1 [0, 16] [0]
     (by decide) rfl rfl (by decide)).1,
   rfl,
   (node_table_finalise.2.1 zeroTimes initState 2 [0, 16] [0]
     (by decide) rfl rfl rfl).2,
   by decide,
   node_table_finalise.2.2 zeroTimes initState 3 [0, 16]
     [2, 0, 16, 4, 192, 91, 48, 0, 2, 190, 22] (by decide) (by decide) (by decide)⟩

/-! ## C1 — the CRC gate on released frames -/

theorem accumFinish_ne_some (s : ParserState) (next : FrameState) (buf : List Nat)
    (s2 : ParserState) (f : Frame) : accumFinish s next buf ≠ (s2, some f) := by
  simp [accumFinish]

/-- C1: every frame released by the frame extractor satisfies
`crc(body) = trailing little-endian u16` over the unescaped buffer; a
completed buffer of frame length whose CRC mismatches yields no frame
and increments `crc_errors` by exactly one. -/
theorem crc_gate_on_released_frames :
    (∀ (s : ParserState) (b : Nat) (s2 : ParserState) (f : Frame),
      accumStep s b = (s2, some f) →
      crc (s.buffer.take (s.buffer.length - 2)) =
        u16le (s.buffer.getD (s.buffer.length - 2) 0)
          (s.buffer.getD (s.buffer.length - 1) 0)) ∧
    (∀ (s : ParserState) (b : Nat),
      s.state = .frameEscape → b = 0x08 → 6 ≤ s.buffer.length →
      crc (s.buffer.take (s.buffer.length - 2)) ≠
        u16le (s.buffer.getD (s.buffer.length - 2) 0)
          (s.buffer.getD (s.buffer.length - 1) 0) →
      (accumStep s b).2 = none ∧
      (accumStep s b).1.counters.crcErrors = s.counters.crcErrors + 1) := by
  constructor
  · intro s b s2 f h
    cases hst : s.state <;> (rw [accumStep, hst] at h; dsimp only at h)
    case idle | noise =>
      exact absurd h (accumFinish_ne_some _ _ _ _ _)
    case startOfFrame | frame | giant | giantEscape =>
      repeat' split at h
      all_goals exact absurd h (accumFinish_ne_some _ _ _ _ _)
    case frameEscape =>
      by_cases hb : b = 0x08
      · rw [if_pos hb] at h
        rcases hdec : decodeFrame s.buffer s.counters with ⟨of, c1⟩
        rw [hdec] at h
        have hof : of = some f := congrArg Prod.snd h
        rw [decodeFrame] at hdec
        by_cases h6 : s.buffer.length < 6
        · rw [if_pos h6] at hdec
          have hnone : (none : Option Frame) = of := congrArg Prod.fst hdec
          rw [← hnone] at hof
          exact absurd hof (by simp)
        · rw [if_neg h6] at hdec
          by_cases hcrc : crc (s.buffer.take (s.buffer.length - 2)) ≠
              u16le (s.buffer.getD (s.buffer.length - 2) 0)
                (s.buffer.getD (s.buffer.length - 1) 0)
          · rw [if_pos hcrc] at hdec
            have hnone : (none : Option Frame) = of := congrArg Prod.fst hdec
            rw [← hnone] at hof
            exact absurd hof (by simp)
          · exact not_not.mp hcrc
      · rw [if_neg hb] at h
        repeat' split at h
        all_goals exact absurd h (accumFinish_ne_some _ _ _ _ _)
  · intro s b hst hb hlen hne
    rw [accumStep, hst, hb, if_pos rfl, decodeFrame, if_neg (not_lt.mpr hlen),
      if_pos hne]
    exact ⟨rfl, rfl⟩

/-- A parser state about to close a frame: FRAME_ESCAPE with the given
unescaped buffer. -/
def escapeState (buf : List Nat) : ParserState :=
  { initState with state := .frameEscape, buffer := buf }

/-- The spec's S1 frame body with its valid CRC, and with a corrupted
CRC byte. -/
def s1FrameBody : List Nat := [0x12, 0x01, 0x0B, 0x00, 0x01, 0xFE, 0x83]

def s1FrameBodyBad : List Nat := [0x12, 0x01, 0x0B, 0x00, 0x01, 0xFE, 0x84]

/-- Witness for C1: the spec's S1 frame body (which validates, and is
released with address `0x1201`, type `0x0B00`, payload `01`) and the
same body with a corrupted CRC byte (which is discarded, incrementing
`crc_errors` from 0 to 1). -/
theorem crc_gate_on_released_frames_witness :
    accumStep (escapeState s1FrameBody) 0x08 =
      ({ initState with state := .idle, buffer := [] },
       some ⟨⟨0x1201, false⟩, 0x0B00, [0x01]⟩) ∧
    crc (s1FrameBody.take 5) = u16le 0xFE 0x83 ∧
    (escapeState s1FrameBodyBad).state = .frameEscape ∧
    (accumStep (escapeState s1FrameBodyBad) 0x08).2 = none ∧
    (accumStep (escapeState s1FrameBodyBad) 0x08).1.counters.crcErrors =
      (escapeState s1FrameBodyBad).counters.crcErrors + 1 := by
  refine ⟨by decide, ?_, rfl, ?_, ?_⟩
  · exact crc_gate_on_released_frames.1 (escapeState s1FrameBody) 0x08
      { initState with state := .idle, buffer := [] }
      ⟨⟨0x1201, false⟩, 0x0B00, [0x01]⟩ (by decide)
  · exact (crc_gate_on_released_frames.2 (escapeState s1FrameBodyBad) 0x08
      rfl rfl (by decide) (by decide)).1
  · exact (crc_gate_on_released_frames.2 (escapeState s1FrameBodyBad) 0x08
      rfl rfl (by decide) (by decide)).2

/-! ## C2 — split invariance and determinism of `feed` -/

/-- Feeding a concatenation equals feeding the parts in sequence and
concatenating the events (also when an exception interrupts either
part: both sides are then the same escaped exception). -/
theorem feedBytes_append (times : Nat → ℚ) (l1 l2 : List Nat) (s : ParserState) :
    feedBytes times s (l1 ++ l2) =
      (feedBytes times s l1).bind fun p1 =>
        (feedBytes times p1.1 l2).bind fun p2 => some (p2.1, p1.2 ++ p2.2) := by
  induction l1 generalizing s with
  | nil =>
      rw [List.nil_append]
      cases hx : feedBytes times s l2 <;> simp [feedBytes, hx]
  | cons b rest ih =>
      rw [List.cons_append]
      cases hs : feedStep times s b with
      | none => simp [feedBytes, hs]
      | some p =>
          obtain ⟨s1, e1⟩ := p
          rw [feedBytes]
          conv_rhs => rw [feedBytes]
          rw [hs]
          dsimp only
          rw [ih s1]
          cases ha : feedBytes times s1 rest with
          | none => simp
          | some q =>
              obtain ⟨sa, ea⟩ := q
              cases hb2 : feedBytes times sa l2 <;> simp [hb2, List.append_assoc]

/-- C2: for every byte stream and every split index, feeding the two
halves to the same parser state yields the same final state and the
same concatenated event list as feeding the whole stream, and `feed`
is deterministic (two runs over the same stream with the same time
oracle coincide). -/
theorem feed_split_deterministic :
    (∀ (times : Nat → ℚ) (data : List Nat) (k : Nat) (s : ParserState),
      feedBytes times s data =
        (feedBytes times s (data.take k)).bind fun p1 =>
          (feedBytes times p1.1 (data.drop k)).bind fun p2 =>
            some (p2.1, p1.2 ++ p2.2)) ∧
    (∀ (times : Nat → ℚ) (data : List Nat) (s : ParserState)
        (r1 r2 : Option (ParserState × List Event)),
      feedBytes times s data = r1 → feedBytes times s data = r2 → r1 = r2) := by
  constructor
  · intro times data k s
    conv_lhs => rw [← List.take_append_drop k data]
    exact feedBytes_append times (data.take k) (data.drop k) s
  · intro times data s r1 r2 h1 h2
    rw [← h1, ← h2]

/-- Witness for C2: the S1 frame bytes split at index 6, and the
determinism clause at the same concrete run. -/
theorem feed_split_deterministic_witness :
    feedBytes zeroTimes initState
        [0x7E, 0x07, 0x12, 0x01, 0x0B, 0x00, 0x01, 0xFE, 0x83, 0x7E, 0x08] =
      (feedBytes zeroTimes initState
          ([0x7E, 0x07, 0x12, 0x01, 0x0B, 0x00, 0x01, 0xFE, 0x83, 0x7E, 0x08].take 6)).bind
        (fun p1 =>
          (feedBytes zeroTimes p1.1
              ([0x7E, 0x07, 0x12, 0x01, 0x0B, 0x00, 0x01, 0xFE, 0x83, 0x7E, 0x08].drop 6)).bind
            fun p2 => some (p2.1, p1.2 ++ p2.2)) ∧
    feedBytes zeroTimes initState [0x7E, 0x07] = feedBytes zeroTimes initState [0x7E, 0x07] :=
  ⟨feed_split_deterministic.1 zeroTimes
      [0x7E, 0x07, 0x12, 0x01, 0x0B, 0x00, 0x01, 0xFE, 0x83, 0x7E, 0x08] 6 initState,
   feed_split_deterministic.2 zeroTimes [0x7E, 0x07] initState
      (feedBytes zeroTimes initState [0x7E, 0x07])
      (feedBytes zeroTimes initState [0x7E, 0x07]) rfl rfl⟩

/-! ## C3 — enumeration-cycle atomicity -/

/-- C3 counterexample: the claim states that exactly one
InfrastructureEvent is emitted for a whole enumeration cycle.  On this
trace a NODE_TABLE page is pushed, an enumeration cycle starts, a
count-0 NODE_TABLE pair completes (installing the table and emitting an
InfrastructureEvent inside the cycle), and the cycle then commits
(emitting another); the run emits exactly two InfrastructureEvents and
both fall between the ENUMERATION_START_REQUEST and the
ENUMERATION_END_RESPONSE. -/
theorem enum_cycle_two_infrastructure_events :
    (feedBytes zeroTimes initState enumNodeTableTrace).map
      (fun p => (p.2.countP Event.isInfrastructure, p.2.length, p.1.enumState)) =
    some (2, 2, none) := by decide

/-- C3 as amended: during an enumeration cycle the identity and version
responses emit no events and leave the persistent snapshot untouched
(they write only the provisional side buffer), and the end response
commits the side buffer wholesale over `gateway_identities` and
`gateway_versions`, emitting exactly one InfrastructureEvent that
carries the snapshot of the newly committed state — this is the only
InfrastructureEvent produced by the enumeration handlers themselves,
though other traffic inside the cycle (a completed node-table transfer)
can emit additional ones. -/
theorem enum_commit_single_event :
    (∀ (times : Nat → ℚ) (s : ParserState) (f : Frame) (es : EnumerationState),
      s.enumState = some es →
      (handleEnumerationResponse times s f).2 = [] ∧
      (handleEnumerationResponse times s f).1.persistent = s.persistent ∧
      (handleIdentifyResponse times s f).2 = [] ∧
      (handleIdentifyResponse times s f).1.persistent = s.persistent ∧
      (handleVersionResponse times s f).2 = [] ∧
      (handleVersionResponse times s f).1.persistent = s.persistent) ∧
    (∀ (times : Nat → ℚ) (s : ParserState) (f : Frame) (es : EnumerationState),
      s.enumState = some es → f.address.isFrom = true →
      handleEnumerationEnd times s f =
        ({ s with
            persistent := ⟨es.gatewayIdentities, es.gatewayVersions,
              s.persistent.gatewayNodeTables⟩
            enumState := none
            nowCalls := s.nowCalls + 1 },
         [Event.infrastructure
            (mkInfrastructureGateways ⟨es.gatewayIdentities, es.gatewayVersions,
              s.persistent.gatewayNodeTables⟩)
            (mkInfrastructureNodes ⟨es.gatewayIdentities, es.gatewayVersions,
              s.persistent.gatewayNodeTables⟩)
            (times s.nowCalls)])) := by
  constructor
  · intro times s f es hes
    refine ⟨?_, ?_, ?_, ?_, ?_, ?_⟩ <;>
      (first
        | (rw [handleEnumerationResponse]
           cases hdir : f.address.isFrom <;> simp [hes] <;> split_ifs <;> simp)
        | (rw [handleIdentifyResponse]
           cases hdir : f.address.isFrom <;> simp [hes] <;> split_ifs <;> simp)
        | (rw [handleVersionResponse]
           cases hdir : f.address.isFrom <;> simp [hes] <;> split_ifs <;> simp))
  · intro times s f es hes hdir
    rw [handleEnumerationEnd, hdir]
    simp only [Bool.not_true, Bool.false_eq_true, if_false, hes]
    rw [emitInfrastructureEvent]
    simp [takeNow]

/-- A concrete mid-cycle parser state: enumerating gateway 5, with one
provisional identity and one provisional version for gateway 2. -/
def enumMidState : ParserState :=
  { initState with
    enumState := some ⟨5, [(2, [1, 2, 3, 4, 5, 6, 7, 8])], [(2, "v")]⟩ }

/-- Witness for the amended C3 at `enumMidState`: a version response
mid-cycle emits nothing and leaves the persistent snapshot untouched,
and the end response commits the provisional buffers and emits exactly
the one snapshot-carrying InfrastructureEvent. -/
theorem enum_commit_single_event_witness :
    enumMidState.enumState =
      some (⟨5, [(2, [1, 2, 3, 4, 5, 6, 7, 8])], [(2, "v")]⟩ : EnumerationState) ∧
    (⟨⟨1, true⟩, 0x0006, []⟩ : Frame).address.isFrom = true ∧
    (handleVersionResponse zeroTimes enumMidState ⟨⟨7, true⟩, 0x000B, [0x31]⟩).2 = [] ∧
    (handleVersionResponse zeroTimes enumMidState
        ⟨⟨7, true⟩, 0x000B, [0x31]⟩).1.persistent = enumMidState.persistent ∧
    handleEnumerationEnd zeroTimes enumMidState ⟨⟨1, true⟩, 0x0006, []⟩ =
      ({ enumMidState with
          persistent := ⟨[(2, [1, 2, 3, 4, 5, 6, 7, 8])], [(2, "v")],
            enumMidState.persistent.gatewayNodeTables⟩
          enumState := none
          nowCalls := enumMidState.nowCalls + 1 },
       [Event.infrastructure
          (mkInfrastructureGateways ⟨[(2, [1, 2, 3, 4, 5, 6, 7, 8])], [(2, "v")],
            enumMidState.persistent.gatewayNodeTables⟩)
          (mkInfrastructureNodes ⟨[(2, [1, 2, 3, 4, 5, 6, 7, 8])], [(2, "v")],
            enumMidState.persistent.gatewayNodeTables⟩)
          (zeroTimes enumMidState.nowCalls)]) :=
  ⟨rfl, rfl,
   ((enum_commit_single_event.1 zeroTimes enumMidState ⟨⟨7, true⟩, 0x000B, [0x31]⟩
      ⟨5, [(2, [1, 2, 3, 4, 5, 6, 7, 8])], [(2, "v")]⟩ rfl).2.2.2.2).1,
   ((enum_commit_single_event.1 zeroTimes enumMidState ⟨⟨7, true⟩, 0x000B, [0x31]⟩
      ⟨5, [(2, [1, 2, 3, 4, 5, 6, 7, 8])], [(2, "v")]⟩ rfl).2.2.2.2).2,
   enum_commit_single_event.2 zeroTimes enumMidState ⟨⟨1, true⟩, 0x0006, []⟩
      ⟨5, [(2, [1, 2, 3, 4, 5, 6, 7, 8])], [(2, "v")]⟩ rfl rfl⟩

/-! ## C7 — 1-byte packet-number continuation -/

/-- Total width of the skipped auxiliary header fields. -/
def skipLen (st : Nat) : Nat :=
  (if st &&& 0x0001 = 0 then 1 else 0) + (if st &&& 0x0002 = 0 then 1 else 0) +
    (if st &&& 0x0004 = 0 then 2 else 0) + (if st &&& 0x0008 = 0 then 2 else 0)

theorem rrOffset_eq (st : Nat) : rrOffset st = 2 + skipLen st := by
  rw [rrOffset, skipLen]
  split_ifs <;> omega

theorem and_255_eq_mod (n : Nat) : n &&& 0xFF = n % 256 :=
  Nat.and_pow_two_sub_one_eq_mod n 8

theorem iterReceivedPackets_nil : iterReceivedPackets [] = [] := by
  rw [iterReceivedPackets]
  simp

theorem shiftRight8_eq_div (n : Nat) : n >>> 8 = n / 256 := by
  rw [Nat.shiftRight_eq_div_pow]

/-- C7: when a RECEIVE_RESPONSE header selects the 1-byte packet-number
encoding (status bit 0x0010 set), the stored packet number for that
gateway becomes `(prev_hi <<< 8) ||| new_lo` with the high byte
incremented modulo 256 exactly when `new_lo` is below the previous
number's low byte; the first conjunct states the formula of the
expansion helper, the second that the handler stores exactly its result
for a frame carrying any conforming variable header. -/
theorem packet_number_continuation :
    (∀ (lo old : Nat), old < 65536 →
      interpretPacketNumberLo lo old =
        ((if lo < old % 256 then (old / 256 + 1) % 256 else old / 256) <<< 8) ||| lo) ∧
    (∀ (times : Nat → ℚ) (s : ParserState) (gw st lo c0 c1 old : Nat) (aux : List Nat),
      alGet s.rxPacketNumbers gw = some old →
      alGet s.capturedSlotTimes gw = none →
      st &&& 0x00E0 = 0x00E0 → st &&& 0x0010 ≠ 0 → st < 65536 →
      aux.length = skipLen st →
      handleReceiveResponse times s
          ⟨⟨gw, true⟩, 0x0149, (st >>> 8) :: (st &&& 0xFF) :: (aux ++ [lo, c0, c1])⟩ =
        some ({ s with rxPacketNumbers := alSet s.rxPacketNumbers gw (interpretPacketNumberLo lo old) }, []) ∧
      alGet (alSet s.rxPacketNumbers gw (interpretPacketNumberLo lo old)) gw =
        some (interpretPacketNumberLo lo old)) := by
  constructor
  · intro lo old hold
    rw [interpretPacketNumberLo]
    have hhi : (old >>> 8) &&& 0xFF = old / 256 := by
      rw [shiftRight8_eq_div, and_255_eq_mod, Nat.mod_eq_of_lt (by omega)]
    have hlo : old &&& 0xFF = old % 256 := and_255_eq_mod old
    rw [hhi, hlo]
    by_cases h : lo < old % 256
    · rw [if_pos h, if_neg (by omega), and_255_eq_mod]
    · rw [if_neg h, if_pos (by omega)]
  · intro times s gw st lo c0 c1 old aux hold hcap hE h10 hst haux
    have hlen : ((st >>> 8) :: (st &&& 0xFF) :: (aux ++ [lo, c0, c1])).length =
        aux.length + 5 := by simp
    have hst2 : u16be (((st >>> 8) :: (st &&& 0xFF) :: (aux ++ [lo, c0, c1])).getD 0 0)
        (((st >>> 8) :: (st &&& 0xFF) :: (aux ++ [lo, c0, c1])).getD 1 0) = st := by
      simp only [List.getD_cons_zero, List.getD_cons_succ, u16be]
      rw [shiftRight8_eq_div, and_255_eq_mod]
      omega
    have hgdLo : ((st >>> 8) :: (st &&& 0xFF) :: (aux ++ [lo, c0, c1])).getD
        (2 + aux.length) 0 = lo := by
      rw [show (2 : Nat) + aux.length = aux.length + 1 + 1 by omega]
      simp only [List.getD_cons_succ]
      rw [List.getD_eq_getElem?_getD, List.getElem?_append_right (by omega)]
      simp
    have hdrop : ((st >>> 8) :: (st &&& 0xFF) :: (aux ++ [lo, c0, c1])).drop
        (2 + aux.length + 1 + 2) = [] := by
      apply List.drop_eq_nil_of_le
      rw [hlen]
      omega
    refine ⟨?_, alGet_alSet s.rxPacketNumbers gw (interpretPacketNumberLo lo old)⟩
    rw [handleReceiveResponse]
    dsimp only
    simp only [Bool.not_true, Bool.false_eq_true, if_false]
    rw [hold]
    dsimp only
    rw [if_neg (by rw [hlen]; omega)]
    rw [hst2]
    rw [if_neg (not_not_intro hE)]
    rw [rrOffset_eq, ← haux]
    rw [if_neg (by rw [hlen]; omega)]
    rw [if_neg h10]
    rw [if_neg (by rw [hlen]; omega)]
    rw [hgdLo]
    dsimp only
    rw [if_neg (by rw [hlen]; omega)]
    rw [alPop_of_alGet_none s.capturedSlotTimes gw hcap]
    dsimp only
    rw [hdrop, iterReceivedPackets_nil]
    rfl

/-- A parser state that has stored packet number 0x12FF for gateway 1
(as a RECEIVE_REQUEST would leave behind, with no pending capture). -/
def recvState : ParserState :=
  { initState with rxPacketNumbers := [(1, 0x12FF)] }

/-- Witness for C7: status 0x00FF (valid header, no auxiliary fields,
1-byte number), low byte 5 < 255: the stored number wraps the high
byte, 0x12FF → 0x1305. -/
theorem packet_number_continuation_witness :
    (0x12FF : Nat) < 65536 ∧
    interpretPacketNumberLo 5 0x12FF =
      ((if 5 < 0x12FF % 256 then (0x12FF / 256 + 1) % 256 else 0x12FF / 256) <<< 8) ||| 5 ∧
    alGet recvState.rxPacketNumbers 1 = some 0x12FF ∧
    alGet recvState.capturedSlotTimes 1 = none ∧
    (0xFF &&& 0x00E0 = 0x00E0) ∧ (0xFF &&& 0x0010 ≠ 0) ∧ (0xFF : Nat) < 65536 ∧
    ([] : List Nat).length = skipLen 0xFF ∧
    handleReceiveResponse zeroTimes recvState
        ⟨⟨1, true⟩, 0x0149, (0xFF >>> 8) :: (0xFF &&& 0xFF) :: ([] ++ [5, 0, 0])⟩ =
      some ({ recvState with rxPacketNumbers := alSet recvState.rxPacketNumbers 1 (interpretPacketNumberLo 5 0x12FF) }, []) ∧
    alGet (alSet recvState.rxPacketNumbers 1 (interpretPacketNumberLo 5 0x12FF)) 1 =
      some (interpretPacketNumberLo 5 0x12FF) :=
  ⟨by decide,
   packet_number_continuation.1 5 0x12FF (by decide),
   rfl, rfl, by decide, by decide, by decide, by decide,
   (packet_number_continuation.2 zeroTimes recvState 1 0xFF 5 0 0 0x12FF []
     rfl rfl (by decide) (by decide) (by decide) (by decide)).1,
   (packet_number_continuation.2 zeroTimes recvState 1 0xFF 5 0 0 0x12FF []
     rfl rfl (by decide) (by decide) (by decide) (by decide)).2⟩

end Pytap
